import Mathlib

/-!
Verification of the Starboard property-comparison application against its
specification.

The development shallowly embeds the relevant program fragments:

* the comparable-generation and submission logic of
  `frontend/src/app/compare/page.tsx` (`getRandomInt`,
  `generateRandomProperty`, `handleSubmit`), with `Math.random()` modelled
  as an explicit stream of rational draws threaded through the computation;
* the dashboard statistics computation of the dashboard page
  (`DashboardPage`: `filterProperties` and the `stats` record);
* the Update Synchronization Client of spec section 4.4, modelled from the
  spec because the repository contains no polling implementation.
-/

namespace Starboard

/-! ## Compare page: data types (compare/page.tsx) -/

/-- The subject-property form state (`PropertyInput` in compare/page.tsx):
all fields are held as strings by the form. -/
structure PropertyInput where
  address : String
  price : String
  squareFootage : String
  yearBuilt : String
  propertyType : String
deriving DecidableEq, Repr

/-- Output entity of the comparable stand-in (`ComparableResult` in
compare/page.tsx).  Note it carries no coordinates and no property type. -/
structure ComparableResult where
  address : String
  price : ℤ
  squareFootage : ℤ
  similarityScore : ℚ
  confidenceScore : ℚ
deriving DecidableEq, Repr

/-- State of the pseudo-random source: the stream of values produced by
successive `Math.random()` calls, and the index of the next draw.  Each
stream value stands for one double in `[0,1)`. -/
abbrev RandState := (ℕ → ℚ) × ℕ

/-- One `Math.random()` call: returns the next stream value and advances. -/
def mathRandom (s : RandState) : ℚ × RandState :=
  (s.1 s.2, (s.1, s.2 + 1))

/-- `getRandomInt(min, max)` from compare/page.tsx:
`Math.floor(Math.random() * (max - min + 1)) + min`. -/
def getRandomInt (min max : ℤ) (s : RandState) : ℤ × RandState :=
  let r := mathRandom s
  (⌊r.1 * ((max - min + 1 : ℤ) : ℚ)⌋ + min, r.2)

/-- The `streets` array of `generateRandomProperty`. -/
def streets : List String :=
  ["Main St", "Oak Ave", "Pine Rd", "Maple Dr", "Elm St",
   "Cedar Ln", "Birch Blvd", "Spruce Ct", "Willow Way", "Ash Pl"]

/-- The `cities` array of `generateRandomProperty`. -/
def cities : List String :=
  ["Springfield", "Riverside", "Franklin", "Greenville", "Fairview"]

/-- The `states` array of `generateRandomProperty`. -/
def states : List String := ["CA", "TX", "FL", "NY", "IL"]

/-- `generateRandomProperty` from compare/page.tsx.  It consumes eight
random draws (address number, street, city, state, price, square footage,
similarity score, confidence score) and reads nothing else — in
particular, no subject data. -/
def generateRandomProperty (s : RandState) : ComparableResult × RandState :=
  let a1 := getRandomInt 100 9999 s
  let a2 := getRandomInt 0 ((streets.length : ℤ) - 1) a1.2
  let a3 := getRandomInt 0 ((cities.length : ℤ) - 1) a2.2
  let a4 := getRandomInt 0 ((states.length : ℤ) - 1) a3.2
  let address := toString a1.1 ++ " " ++ streets.getD a2.1.toNat "" ++ ", " ++
    cities.getD a3.1.toNat "" ++ ", " ++ states.getD a4.1.toNat ""
  let price := getRandomInt 200000 2000000 a4.2
  let squareFootage := getRandomInt 800 5000 price.2
  let similarityScore := mathRandom squareFootage.2
  let confidenceScore := mathRandom similarityScore.2
  ({ address := address, price := price.1, squareFootage := squareFootage.1,
     similarityScore := similarityScore.1,
     confidenceScore := confidenceScore.1 },
   confidenceScore.2)

/-- `Array.from({ length: n }, generateRandomProperty)`: `n` sequential
calls of the generator, threading the random state. -/
def generateComparables : ℕ → RandState → List ComparableResult × RandState
  | 0, s => ([], s)
  | n + 1, s =>
    let p := generateRandomProperty s
    let rest := generateComparables n p.2
    (p.1 :: rest.1, rest.2)

/-- The sort comparator `(a, b) => b.similarityScore - a.similarityScore`
of `handleSubmit`, as the corresponding "may come before" relation: `a`
may precede `b` exactly when the comparator is `≤ 0`, i.e. when
`b.similarityScore ≤ a.similarityScore`. -/
def simDesc (a b : ComparableResult) : Prop :=
  b.similarityScore ≤ a.similarityScore

instance : DecidableRel simDesc := fun a b =>
  inferInstanceAs (Decidable (b.similarityScore ≤ a.similarityScore))

instance : IsTotal ComparableResult simDesc :=
  ⟨fun a b => le_total b.similarityScore a.similarityScore⟩

instance : IsTrans ComparableResult simDesc :=
  ⟨fun _ _ _ h1 h2 => le_trans h2 h1⟩

/-- The outcome of one form submission: the sorted comparables state, the
single best result shown, and the error state. -/
structure SubmitOutcome where
  comparables : List ComparableResult
  result : Option ComparableResult
  error : Option String
deriving DecidableEq, Repr

/-- `handleSubmit` from compare/page.tsx: generate 10 random comparables,
sort them descending by similarity score, store the sorted list and its
first element.  JavaScript `Array.prototype.sort` is a stable sort, and a
stable sort's output is uniquely determined by the comparator, so it is
modelled by the stable `List.insertionSort` with the `simDesc` relation.
Nothing in the `try` block can throw, so the `catch` branch setting an
error message is dead: the error state stays `null`.  The `form` argument
is in scope but never read. -/
def handleSubmit (form : PropertyInput) (s : RandState) : SubmitOutcome :=
  let comps := (generateComparables 10 s).1
  let sorted := comps.insertionSort simDesc
  { comparables := sorted, result := sorted.head?, error := none }

/-! ## Helper forms of the generator used in proofs -/

/-- A random state whose every draw is the value `r`, used to express a
single-draw computation. -/
def constStream (r : ℚ) : RandState := ((fun _ => r), 0)

/-- The comparable built by `generateRandomProperty` from its eight draws
`r0, …, r7`, expressed draw by draw.  `generateRandomProperty_fst` proves
definitional agreement with `generateRandomProperty`. -/
def mkComparable (r0 r1 r2 r3 r4 r5 r6 r7 : ℚ) : ComparableResult :=
  { address := toString (getRandomInt 100 9999 (constStream r0)).1 ++ " " ++
      streets.getD (getRandomInt 0 ((streets.length : ℤ) - 1) (constStream r1)).1.toNat "" ++
      ", " ++
      cities.getD (getRandomInt 0 ((cities.length : ℤ) - 1) (constStream r2)).1.toNat "" ++
      ", " ++
      states.getD (getRandomInt 0 ((states.length : ℤ) - 1) (constStream r3)).1.toNat ""
    price := (getRandomInt 200000 2000000 (constStream r4)).1
    squareFootage := (getRandomInt 800 5000 (constStream r5)).1
    similarityScore := r6
    confidenceScore := r7 }

/-! ## Concrete inputs used by witnesses and counterexamples -/

/-- A stream on which every `Math.random()` call returns 0 (a legitimate
double in `[0,1)`). -/
def zeroStream : ℕ → ℚ := fun _ => 0

/-- A form submission with every field left empty: the subject lacks an
address, a price, a square footage, a year built and a property type. -/
def emptyForm : PropertyInput :=
  { address := "", price := "", squareFootage := "", yearBuilt := "", propertyType := "" }

/-- A filled-in subject form: an industrial property in Chicago, Illinois. -/
def chicagoSubject : PropertyInput :=
  { address := "123 W Madison St, Chicago, IL", price := "500000",
    squareFootage := "10000", yearBuilt := "1990", propertyType := "industrial" }

/-- A different filled-in subject form: a warehouse in Los Angeles,
California. -/
def losAngelesSubject : PropertyInput :=
  { address := "101 Cedar St, Los Angeles, CA", price := "850000",
    squareFootage := "3200", yearBuilt := "2018", propertyType := "warehouse" }

/-- The rational 1/10, as an explicit reduced fraction (a possible
`Math.random()` value). -/
def qTenth : ℚ := ⟨1, 10, by norm_num, by norm_num⟩

/-- The rational 1/2, as an explicit reduced fraction. -/
def qHalf : ℚ := ⟨1, 2, by norm_num, by norm_num⟩

/-- The rational 9/10, as an explicit reduced fraction. -/
def qNineTenths : ℚ := ⟨9, 10, by norm_num, by norm_num⟩

/-- A draw stream on which the first generated comparable has similarity
score 1/10 but confidence score 9/10 (draws 6 and 7 of the first
comparable), all other draws 0. -/
def lowSimHighConfStream : ℕ → ℚ := fun k =>
  if k = 6 then qTenth else if k = 7 then qNineTenths else 0

/-- A draw stream on which the first two generated comparables tie at
similarity score 1/2, the first with confidence 1/10 and the second with
confidence 9/10, all other draws 0. -/
def tiedScoreStream : ℕ → ℚ := fun k =>
  if k = 6 then qHalf else if k = 7 then qTenth else
  if k = 14 then qHalf else if k = 15 then qNineTenths else 0

/-- The first comparable generated from the zero stream.  Its address is
"100 Main St, Springfield, CA" (proved below), while the subject forms
place the subject in Chicago, Illinois. -/
def firstZeroComparable : ComparableResult :=
  (generateRandomProperty (zeroStream, 0)).1

/-- The ordering demanded by the spec's tie-break policy, restricted to
the fields a `ComparableResult` actually has: descending blended score,
and on equal score descending confidence (`a` may precede `b`). -/
def specTieBreakLE (a b : ComparableResult) : Prop :=
  b.similarityScore < a.similarityScore ∨
  (b.similarityScore = a.similarityScore ∧ b.confidenceScore ≤ a.confidenceScore)

instance : DecidableRel specTieBreakLE := fun a b => by
  unfold specTieBreakLE; infer_instance

/-! ## Dashboard page: data types and statistics (DashboardPage) -/

/-- The `Property` interface of PropertyCard.tsx (fields marked `?` in
TypeScript are `Option`s). -/
structure Property where
  id : String
  address : String
  city : String
  state : String
  zipCode : String
  price : ℤ
  bedrooms : Option ℚ
  bathrooms : Option ℚ
  squareFeet : Option ℤ
  propertyType : String
  yearBuilt : Option ℤ
  imageUrl : Option String
  county : String
deriving DecidableEq, Repr

/-- The `mockProperties` array of the dashboard page. -/
def mockProperties : List Property :=
  [{ id := "1", address := "123 Main St", city := "Chicago", state := "IL",
     zipCode := "60601", price := 450000, bedrooms := some 3, bathrooms := some 2,
     squareFeet := some 1800, propertyType := "Residential", yearBuilt := some 2005,
     imageUrl := none, county := "cook" },
   { id := "2", address := "456 Oak Ave", city := "Chicago", state := "IL",
     zipCode := "60602", price := 550000, bedrooms := some 4, bathrooms := some 3,
     squareFeet := some 2200, propertyType := "Residential", yearBuilt := some 2010,
     imageUrl := none, county := "cook" },
   { id := "3", address := "789 Pine Blvd", city := "Dallas", state := "TX",
     zipCode := "75201", price := 650000, bedrooms := some 4,
     bathrooms := some ⟨7, 2, by norm_num, by norm_num⟩,
     squareFeet := some 2800, propertyType := "Residential", yearBuilt := some 2015,
     imageUrl := none, county := "dallas" },
   { id := "4", address := "101 Cedar St", city := "Los Angeles", state := "CA",
     zipCode := "90001", price := 850000, bedrooms := some 5, bathrooms := some 4,
     squareFeet := some 3200, propertyType := "Residential", yearBuilt := some 2018,
     imageUrl := none, county := "la" },
   { id := "5", address := "202 Commercial Plaza", city := "Chicago", state := "IL",
     zipCode := "60603", price := 1200000, bedrooms := none, bathrooms := none,
     squareFeet := some 5000, propertyType := "Commercial", yearBuilt := some 2000,
     imageUrl := none, county := "cook" },
   { id := "6", address := "303 Industrial Park", city := "Dallas", state := "TX",
     zipCode := "75202", price := 1500000, bedrooms := none, bathrooms := none,
     squareFeet := some 8000, propertyType := "Industrial", yearBuilt := some 1995,
     imageUrl := none, county := "dallas" }]

/-- JavaScript's `toLowerCase()`, modelled character-wise over the
string's character list. -/
def toLowerCase (s : String) : String := String.mk (s.data.map Char.toLower)

/-- The dashboard's filter effect: start from `mockProperties`, filter by
county when a county is selected, then by lower-cased property type when
a type is selected. -/
def filterProperties (selectedCounty selectedPropertyType : String) : List Property :=
  let f1 := if selectedCounty ≠ "all" then
    mockProperties.filter (fun p => p.county = selectedCounty) else mockProperties
  if selectedPropertyType ≠ "all" then
    f1.filter (fun p => toLowerCase p.propertyType = selectedPropertyType) else f1

/-- JavaScript `Math.round`: round half away from zero towards positive
infinity. -/
def jsRound (q : ℚ) : ℤ := ⌊q + qHalf⌋

/-- The `stats` record computed by the dashboard page. -/
structure DashboardStats where
  totalProperties : ℕ
  averagePrice : ℤ
  averageSquareFeet : ℤ
  newestProperty : ℤ
deriving DecidableEq, Repr

/-- The dashboard statistics computation: each average divides by the
filtered list's length only behind an explicit non-emptiness guard and
is 0 otherwise; `newestProperty` is `Math.max` over the years built
(missing years counted as 0), also guarded. -/
def dashboardStats (selectedCounty selectedPropertyType : String) : DashboardStats :=
  let filteredProperties := filterProperties selectedCounty selectedPropertyType
  { totalProperties := filteredProperties.length
    averagePrice :=
      if 0 < filteredProperties.length then
        jsRound (((filteredProperties.foldl (fun sum p => sum + p.price) 0 : ℤ) : ℚ) /
          (filteredProperties.length : ℚ))
      else 0
    averageSquareFeet :=
      if 0 < filteredProperties.length then
        jsRound (((filteredProperties.foldl
            (fun sum p => sum + p.squareFeet.getD 0) 0 : ℤ) : ℚ) /
          (filteredProperties.length : ℚ))
      else 0
    newestProperty :=
      if 0 < filteredProperties.length then
        ((filteredProperties.map (fun p => p.yearBuilt.getD 0)).max?).getD 0
      else 0 }

/-! ## Update Synchronization Client (modelled from the spec)

Modelled from the spec: the repository contains no polling-client
implementation — only the WebSocket-to-HTTP-polling migration plan and
spec section 4.4 describe it — so the state machine below follows the
spec's words: conditional polls carrying a version tag, multiplicative
interval growth capped at the maximum on "not modified", reset to the
base interval plus exactly one `onDataChanged` callback on "changed",
exponential backoff and a consecutive-failure cap leading to a terminal
`stopped` state on transport failures. -/

/-- Modelled from the spec: polling configuration knobs of spec section 6
(base interval, min interval, max interval, backoff multiplier, max
consecutive failures before stopping). -/
structure PollConfig where
  baseInterval : ℚ
  minInterval : ℚ
  maxInterval : ℚ
  backoffMultiplier : ℚ
  maxConsecutiveFailures : ℕ
deriving DecidableEq, Repr

/-- The spec's default configuration: base 30s, min 15s, max 120s,
multiplier 1.5, failure cap 3 (the migration plan's "maximum retries"). -/
def defaultPollConfig : PollConfig :=
  { baseInterval := 30, minInterval := 15, maxInterval := 120,
    backoffMultiplier := ⟨3, 2, by norm_num, by norm_num⟩,
    maxConsecutiveFailures := 3 }

/-- Modelled from the spec: `PollState` of spec section 3 — current
interval, last-seen version tag, consecutive-failure count, last-success
timestamp. -/
structure PollState where
  interval : ℚ
  versionTag : Option String
  consecutiveFailures : ℕ
  lastSuccess : Option ℕ
deriving DecidableEq, Repr

/-- Modelled from the spec: the polling endpoint's possible responses —
"not modified", a changed payload with a new version token, or a
transport failure. -/
inductive PollResponse where
  | notModified
  | changed (newTag : String)
  | transportFailure
deriving DecidableEq, Repr

/-- Modelled from the spec: observable events the client emits towards
its consumer — the `onDataChanged` callback and the persistent-failure
signal. -/
inductive PollEvent where
  | dataChanged (newTag : String)
  | persistentFailure (failures : ℕ)
deriving DecidableEq, Repr

/-- Modelled from the spec: the client is either running (holding a
`PollState`) or in the terminal `stopped` state. -/
inductive ClientState where
  | running (ps : PollState)
  | stopped
deriving DecidableEq, Repr

/-- Modelled from the spec: the state created at client start — the base
interval, no version tag seen, no failures, no success yet. -/
def initPollState (cfg : PollConfig) : PollState :=
  { interval := cfg.baseInterval, versionTag := none,
    consecutiveFailures := 0, lastSuccess := none }

/-- Modelled from the spec: one poll cycle of the Update Synchronization
Client, from a running state, consuming one response at time `now`:

* "not modified" leaves data untouched, multiplies the interval by the
  backoff multiplier capped at the maximum, and resets the
  consecutive-failure count (the count is of consecutive failures);
* "changed" replaces the version tag, resets the interval to the base
  value, and emits `onDataChanged` exactly once;
* a transport failure increments the failure count and applies the same
  capped multiplicative backoff; when the count reaches the configured
  cap the client transitions to `stopped` and surfaces a
  persistent-failure signal. -/
def pollStep (cfg : PollConfig) (ps : PollState) (now : ℕ) :
    PollResponse → ClientState × List PollEvent
  | .notModified =>
    (.running { ps with
        interval := min (ps.interval * cfg.backoffMultiplier) cfg.maxInterval,
        consecutiveFailures := 0,
        lastSuccess := some now }, [])
  | .changed tag =>
    (.running { ps with
        interval := cfg.baseInterval,
        versionTag := some tag,
        consecutiveFailures := 0,
        lastSuccess := some now }, [.dataChanged tag])
  | .transportFailure =>
    let f := ps.consecutiveFailures + 1
    if cfg.maxConsecutiveFailures ≤ f then
      (.stopped, [.persistentFailure f])
    else
      (.running { ps with
          interval := min (ps.interval * cfg.backoffMultiplier) cfg.maxInterval,
          consecutiveFailures := f }, [])

/-- Modelled from the spec: cancellation/unmount transitions the client
to the terminal `stopped` state from anywhere. -/
def cancelPolling : ClientState → ClientState := fun _ => .stopped

/-- The observable trace of a polling run: the final client state, the
events emitted, and how many poll requests were sent. -/
structure PollTrace where
  final : ClientState
  events : List PollEvent
  requestsSent : ℕ
deriving DecidableEq, Repr

/-- Modelled from the spec: a run of the client over a list of responses,
one response per cycle.  A running client sends one conditional request
per cycle; a stopped client sends none and consumes nothing. -/
def pollRun (cfg : PollConfig) : ClientState → ℕ → List PollResponse → PollTrace
  | s, _, [] => { final := s, events := [], requestsSent := 0 }
  | .stopped, _, _ :: _ => { final := .stopped, events := [], requestsSent := 0 }
  | .running ps, now, r :: rs =>
    let step := pollStep cfg ps now r
    let t := pollRun cfg step.1 (now + 1) rs
    { final := t.final, events := step.2 ++ t.events, requestsSent := t.requestsSent + 1 }

/-- The interval-bounds invariant of spec section 3: a running client's
poll interval lies within the configured `[min, max]` bounds. -/
def intervalWithinBounds (cfg : PollConfig) : ClientState → Prop
  | .running ps => cfg.minInterval ≤ ps.interval ∧ ps.interval ≤ cfg.maxInterval
  | .stopped => True

/-! # Helper lemmas on the comparable generator -/

theorem generateRandomProperty_fst (f : ℕ → ℚ) (i : ℕ) :
    (generateRandomProperty (f, i)).1 =
      mkComparable (f i) (f (i + 1)) (f (i + 2)) (f (i + 3)) (f (i + 4)) (f (i + 5))
        (f (i + 6)) (f (i + 7)) := rfl

theorem generateRandomProperty_snd (f : ℕ → ℚ) (i : ℕ) :
    (generateRandomProperty (f, i)).2 = (f, i + 8) := rfl

theorem mkComparable_similarityScore (r0 r1 r2 r3 r4 r5 r6 r7 : ℚ) :
    (mkComparable r0 r1 r2 r3 r4 r5 r6 r7).similarityScore = r6 := rfl

theorem mkComparable_confidenceScore (r0 r1 r2 r3 r4 r5 r6 r7 : ℚ) :
    (mkComparable r0 r1 r2 r3 r4 r5 r6 r7).confidenceScore = r7 := rfl

theorem generateComparables_length : ∀ (n : ℕ) (s : RandState),
    (generateComparables n s).1.length = n
  | 0, _ => rfl
  | n + 1, s => by
    show ((generateRandomProperty s).1 ::
      (generateComparables n (generateRandomProperty s).2).1).length = n + 1
    simp [generateComparables_length n]

theorem head_mem_generateComparables (n : ℕ) (s : RandState) :
    (generateRandomProperty s).1 ∈ (generateComparables (n + 1) s).1 :=
  List.mem_cons_self _ _

/-- The submitted comparables are a permutation of the generated ones:
the sort reorders and never discards. -/
theorem handleSubmit_comparables_perm (form : PropertyInput) (s : RandState) :
    (handleSubmit form s).comparables.Perm (generateComparables 10 s).1 :=
  List.perm_insertionSort simDesc _

/-- Every generated comparable's two scores are raw stream draws at
positions 6 and 7 of its eight-draw block. -/
theorem generateComparables_scores : ∀ (n : ℕ) (f : ℕ → ℚ) (i : ℕ),
    ∀ c ∈ (generateComparables n (f, i)).1,
      ∃ k, c.similarityScore = f (k + 6) ∧ c.confidenceScore = f (k + 7)
  | 0, _, _, _, hc => absurd hc (List.not_mem_nil _)
  | n + 1, f, i, c, hc => by
    have hc' : c ∈ (generateRandomProperty (f, i)).1 ::
        (generateComparables n (generateRandomProperty (f, i)).2).1 := hc
    rcases List.mem_cons.mp hc' with h | h
    · exact ⟨i, by rw [h, generateRandomProperty_fst, mkComparable_similarityScore],
        by rw [h, generateRandomProperty_fst, mkComparable_confidenceScore]⟩
    · rw [generateRandomProperty_snd] at h
      exact generateComparables_scores n f (i + 8) c h

theorem getRandomInt_of_zero_draw (lo hi : ℤ) :
    (getRandomInt lo hi (constStream 0)).1 = lo := by
  show (⌊(0 : ℚ) * ((hi - lo + 1 : ℤ) : ℚ)⌋ + lo : ℤ) = lo
  norm_num

theorem firstZeroComparable_address :
    firstZeroComparable.address = "100 Main St, Springfield, CA" := by
  show (mkComparable 0 0 0 0 0 0 0 0).address = "100 Main St, Springfield, CA"
  unfold mkComparable
  rw [getRandomInt_of_zero_draw, getRandomInt_of_zero_draw, getRandomInt_of_zero_draw,
    getRandomInt_of_zero_draw]
  rfl

/-- The generated comparable depends only on its eight draws. -/
theorem generateRandomProperty_fst_congr (g1 g2 : ℕ → ℚ) (i1 i2 : ℕ)
    (h : ∀ k, k < 8 → g1 (i1 + k) = g2 (i2 + k)) :
    (generateRandomProperty (g1, i1)).1 = (generateRandomProperty (g2, i2)).1 := by
  rw [generateRandomProperty_fst, generateRandomProperty_fst,
    show g1 i1 = g2 i2 by simpa using h 0 (by norm_num),
    h 1 (by norm_num), h 2 (by norm_num), h 3 (by norm_num), h 4 (by norm_num),
    h 5 (by norm_num), h 6 (by norm_num), h 7 (by norm_num)]

/-- The generated pool depends only on the `8 * n` draws consumed. -/
theorem generateComparables_congr : ∀ (n : ℕ) (g1 g2 : ℕ → ℚ) (i1 i2 : ℕ),
    (∀ k, k < 8 * n → g1 (i1 + k) = g2 (i2 + k)) →
    (generateComparables n (g1, i1)).1 = (generateComparables n (g2, i2)).1
  | 0, _, _, _, _, _ => rfl
  | n + 1, g1, g2, i1, i2, h => by
    have hh : ∀ k, k < 8 → g1 (i1 + k) = g2 (i2 + k) := fun k hk => h k (by omega)
    have ht : ∀ k, k < 8 * n → g1 (i1 + 8 + k) = g2 (i2 + 8 + k) := by
      intro k hk
      have hx := h (8 + k) (by omega)
      simpa [Nat.add_assoc] using hx
    show (generateRandomProperty (g1, i1)).1 ::
        (generateComparables n (generateRandomProperty (g1, i1)).2).1 =
      (generateRandomProperty (g2, i2)).1 ::
        (generateComparables n (generateRandomProperty (g2, i2)).2).1
    rw [generateRandomProperty_snd, generateRandomProperty_snd,
      generateRandomProperty_fst_congr g1 g2 i1 i2 hh,
      generateComparables_congr n g1 g2 (i1 + 8) (i2 + 8) ht]

/-! # Claim C1 -/

/-- Claim C1, counterexample: on a concrete draw stream (every draw a
legal `Math.random()` value), the returned comparables do not all satisfy
confidence ≤ blended similarity score — the two scores are independent
draws, and here one result has similarity 1/10 but confidence 9/10. -/
theorem confidence_can_exceed_similarity :
    ¬ ∀ c ∈ (handleSubmit chicagoSubject (lowSimHighConfStream, 0)).comparables,
      c.confidenceScore ≤ c.similarityScore := by decide

/-- Claim C1 (amended): for every subject form and every draw stream
whose values lie in `[0,1)` (as `Math.random()` guarantees), every
returned ComparableResult has its similarity score in [0,1] and its
confidence score in [0,1]; the two scores are independent draws and the
confidence score may exceed the similarity score. -/
theorem comparable_scores_in_unit_interval (form : PropertyInput) (f : ℕ → ℚ) (i : ℕ)
    (h : ∀ k, 0 ≤ f k ∧ f k < 1) :
    ∀ c ∈ (handleSubmit form (f, i)).comparables,
      0 ≤ c.similarityScore ∧ c.similarityScore ≤ 1 ∧
      0 ≤ c.confidenceScore ∧ c.confidenceScore ≤ 1 := by
  intro c hc
  have hmem : c ∈ (generateComparables 10 (f, i)).1 :=
    (handleSubmit_comparables_perm form (f, i)).mem_iff.mp hc
  obtain ⟨k, hsim, hconf⟩ := generateComparables_scores 10 f i c hmem
  rw [hsim, hconf]
  exact ⟨(h (k + 6)).1, le_of_lt (h (k + 6)).2, (h (k + 7)).1, le_of_lt (h (k + 7)).2⟩

/-- Claim C1, witness: the amended theorem applied to the empty form and
the all-zero draw stream, at the first returned comparable. -/
theorem comparable_scores_in_unit_interval_witness :
    0 ≤ firstZeroComparable.similarityScore ∧ firstZeroComparable.similarityScore ≤ 1 ∧
    0 ≤ firstZeroComparable.confidenceScore ∧ firstZeroComparable.confidenceScore ≤ 1 :=
  comparable_scores_in_unit_interval emptyForm zeroStream 0
    (fun _ => ⟨le_refl 0, by norm_num [zeroStream]⟩) firstZeroComparable
    ((handleSubmit_comparables_perm emptyForm (zeroStream, 0)).mem_iff.mpr
      (head_mem_generateComparables 9 (zeroStream, 0)))

/-! # Claim C2 -/

/-- Claim C2, counterexample: on a concrete draw stream two returned
comparables tie at similarity score 1/2; the one with confidence 1/10
precedes the one with confidence 9/10 (the stable sort keeps generation
order on ties), so the output is not ordered by the claimed
higher-confidence tie-break. -/
theorem tie_not_broken_by_confidence :
    ¬ List.Pairwise specTieBreakLE
      (handleSubmit chicagoSubject (tiedScoreStream, 0)).comparables := by decide

/-- Claim C2 (amended): for every subject form and draw stream the
operation returns exactly 10 results (there is no K parameter), ordered
descending by similarity score; ties keep generation order (stable sort)
and no confidence, distance or recency tie-break is applied. -/
theorem comparables_sorted_descending (form : PropertyInput) (s : RandState) :
    (handleSubmit form s).comparables.length = 10 ∧
    (handleSubmit form s).comparables.Pairwise
      (fun a b => b.similarityScore ≤ a.similarityScore) := by
  constructor
  · show (List.insertionSort simDesc (generateComparables 10 s).1).length = 10
    rw [List.length_insertionSort, generateComparables_length]
  · exact (List.sorted_insertionSort simDesc _).imp (fun h => h)

/-! # Claim C3 -/

/-- Claim C3, counterexample: two submissions with the identical subject
form but distinct `Math.random()` draw sequences produce different
outcomes — re-running the same query on unchanged input does not yield an
identical ordered sequence. -/
theorem rerun_can_differ :
    handleSubmit chicagoSubject (zeroStream, 0) ≠
      handleSubmit chicagoSubject (lowSimHighConfStream, 0) := by
  intro h
  have h2 : (handleSubmit chicagoSubject (zeroStream, 0)).comparables.map
        ComparableResult.confidenceScore =
      (handleSubmit chicagoSubject (lowSimHighConfStream, 0)).comparables.map
        ComparableResult.confidenceScore := by rw [h]
  revert h2
  decide

/-- Claim C3 (amended): the submission outcome is a deterministic
function of the 80 `Math.random()` draws consumed, and of nothing else:
two runs whose draw sequences agree (even with different subject forms or
stream offsets) produce identical outcomes; runs whose draws differ may
produce different ordered sequences. -/
theorem handleSubmit_determined_by_draws (f1 f2 : PropertyInput) (g1 g2 : ℕ → ℚ)
    (i1 i2 : ℕ) (h : ∀ k, k < 80 → g1 (i1 + k) = g2 (i2 + k)) :
    handleSubmit f1 (g1, i1) = handleSubmit f2 (g2, i2) := by
  show SubmitOutcome.mk _ _ _ = SubmitOutcome.mk _ _ _
  rw [generateComparables_congr 10 g1 g2 i1 i2 (fun k hk => h k (by omega))]

/-- Claim C3, witness: the amended theorem applied at the zero stream
read at two different offsets under two different subject forms. -/
theorem handleSubmit_determined_by_draws_witness :
    handleSubmit chicagoSubject (zeroStream, 0) =
      handleSubmit losAngelesSubject (zeroStream, 5) :=
  handleSubmit_determined_by_draws chicagoSubject losAngelesSubject zeroStream zeroStream
    0 5 (fun _ _ => rfl)

/-! # Claim C4 -/

/-- Claim C4, counterexample: with the all-zero draw stream, the
generated candidate at "100 Main St, Springfield, CA" appears in the
output for a subject declared industrial in Chicago, Illinois — far
outside any maximum geographic radius consistent with the spec's own
example — and the entire output is identical for a completely different
subject (a Los Angeles warehouse): no geographic or type hard filter
exists. -/
theorem distant_candidate_not_filtered :
    firstZeroComparable ∈ (handleSubmit chicagoSubject (zeroStream, 0)).comparables ∧
    firstZeroComparable.address = "100 Main St, Springfield, CA" ∧
    handleSubmit chicagoSubject (zeroStream, 0) =
      handleSubmit losAngelesSubject (zeroStream, 0) :=
  ⟨(handleSubmit_comparables_perm chicagoSubject (zeroStream, 0)).mem_iff.mpr
      (head_mem_generateComparables 9 (zeroStream, 0)),
   firstZeroComparable_address, rfl⟩

/-- Claim C4 (amended): no candidate is ever excluded: for every subject
form and draw stream the output is a permutation of all 10 generated
candidates, so every candidate appears in the output regardless of the
subject's location or property type (the generated candidates carry no
coordinates and no type, and no radius or type-relatedness configuration
exists in the code). -/
theorem no_hard_filter_applied (form : PropertyInput) (s : RandState) :
    (handleSubmit form s).comparables.Perm (generateComparables 10 s).1 ∧
    ∀ c ∈ (generateComparables 10 s).1, c ∈ (handleSubmit form s).comparables := by
  refine ⟨handleSubmit_comparables_perm form s, fun c hc => ?_⟩
  exact (handleSubmit_comparables_perm form s).mem_iff.mpr hc

/-! # Claim C5 -/

/-- Claim C5, counterexample: submitting a subject with every field empty
(no coordinates, no property type) neither fails nor errors: the error
state stays `none` and 10 comparables are returned, instead of the
claimed `InvalidArgument` failure. -/
theorem empty_subject_not_rejected :
    (handleSubmit emptyForm (zeroStream, 0)).error = none ∧
    (handleSubmit emptyForm (zeroStream, 0)).comparables.length = 10 := by
  refine ⟨rfl, ?_⟩
  show (List.insertionSort simDesc (generateComparables 10 (zeroStream, 0)).1).length = 10
  rw [List.length_insertionSort, generateComparables_length]

/-- Claim C5 (amended): the submission never fails: for every subject
form (including one lacking every required field) and every draw stream,
the error state is `none` and exactly 10 comparables are returned; there
is no k parameter, no `InvalidArgument` error, and the empty-pool case
cannot arise because candidates are always generated. -/
theorem handleSubmit_never_fails (form : PropertyInput) (s : RandState) :
    (handleSubmit form s).error = none ∧
    (handleSubmit form s).comparables.length = 10 := by
  refine ⟨rfl, ?_⟩
  show (List.insertionSort simDesc (generateComparables 10 s).1).length = 10
  rw [List.length_insertionSort, generateComparables_length]

/-! # Claim C10 -/

/-- Claim C10: for every filter selection, when the filtered property
list is empty the dashboard's average price and average square footage
are 0: the division by the list length sits behind an explicit
non-emptiness guard, so no division by zero occurs. -/
theorem dashboard_empty_averages_zero (c t : String)
    (h : filterProperties c t = []) :
    (dashboardStats c t).averagePrice = 0 ∧
    (dashboardStats c t).averageSquareFeet = 0 := by
  unfold dashboardStats
  simp [h]

/-- Claim C10, witness: selecting LA County and the industrial type
filters out every mock property, and both averages are 0. -/
theorem dashboard_empty_averages_zero_witness :
    filterProperties "la" "industrial" = [] ∧
    (dashboardStats "la" "industrial").averagePrice = 0 ∧
    (dashboardStats "la" "industrial").averageSquareFeet = 0 :=
  ⟨by decide, dashboard_empty_averages_zero "la" "industrial" (by decide)⟩

/-! # Helper lemmas on the polling client -/

theorem pollRun_from_stopped (cfg : PollConfig) (now : ℕ) (rs : List PollResponse) :
    pollRun cfg .stopped now rs =
      { final := .stopped, events := [], requestsSent := 0 } := by
  cases rs <;> rfl

theorem pollRun_running_cons (cfg : PollConfig) (ps : PollState) (now : ℕ)
    (r : PollResponse) (rs : List PollResponse) :
    pollRun cfg (.running ps) now (r :: rs) =
      { final := (pollRun cfg (pollStep cfg ps now r).1 (now + 1) rs).final,
        events := (pollStep cfg ps now r).2 ++
          (pollRun cfg (pollStep cfg ps now r).1 (now + 1) rs).events,
        requestsSent :=
          (pollRun cfg (pollStep cfg ps now r).1 (now + 1) rs).requestsSent + 1 } := rfl

theorem pollStep_failure_stops (cfg : PollConfig) (ps : PollState) (now : ℕ)
    (h : cfg.maxConsecutiveFailures ≤ ps.consecutiveFailures + 1) :
    pollStep cfg ps now .transportFailure =
      (.stopped, [.persistentFailure (ps.consecutiveFailures + 1)]) := by
  simp [pollStep, h]

theorem pollStep_failure_continues (cfg : PollConfig) (ps : PollState) (now : ℕ)
    (h : ¬ cfg.maxConsecutiveFailures ≤ ps.consecutiveFailures + 1) :
    pollStep cfg ps now .transportFailure =
      (.running { ps with
          interval := min (ps.interval * cfg.backoffMultiplier) cfg.maxInterval,
          consecutiveFailures := ps.consecutiveFailures + 1 }, []) := by
  simp [pollStep, h]

/-- Running through `n + 1` consecutive transport failures exactly
exhausts the failure budget: the client stops, emits one
persistent-failure signal, and sends exactly `n + 1` requests no matter
how many further responses would follow. -/
theorem pollRun_failure_budget (cfg : PollConfig) : ∀ (n : ℕ) (ps : PollState)
    (now : ℕ) (rs : List PollResponse),
    ps.consecutiveFailures + (n + 1) = cfg.maxConsecutiveFailures →
    pollRun cfg (.running ps) now (List.replicate (n + 1) .transportFailure ++ rs) =
      { final := .stopped, events := [.persistentFailure cfg.maxConsecutiveFailures],
        requestsSent := n + 1 }
  | 0, ps, now, rs, h => by
    have hf : cfg.maxConsecutiveFailures ≤ ps.consecutiveFailures + 1 := by omega
    have h1 : ps.consecutiveFailures + 1 = cfg.maxConsecutiveFailures := by omega
    rw [List.replicate_succ, List.replicate_zero, List.cons_append, List.nil_append,
      pollRun_running_cons, pollStep_failure_stops cfg ps now hf,
      pollRun_from_stopped]
    simp [h1]
  | n + 1, ps, now, rs, h => by
    have hf : ¬ cfg.maxConsecutiveFailures ≤ ps.consecutiveFailures + 1 := by omega
    rw [List.replicate_succ, List.cons_append, pollRun_running_cons,
      pollStep_failure_continues cfg ps now hf]
    rw [pollRun_failure_budget cfg n _ (now + 1) rs (by simp; omega)]
    simp

/-! # Claim C6 -/

/-- Claim C6: in one poll cycle of a running client whose interval is at
least the (positive) minimum and whose multiplier exceeds 1: a "not
modified" response strictly increases the interval or holds it at the
configured maximum and emits nothing; a "changed" response resets the
interval to the base value, replaces the stored version tag, and emits
the `onDataChanged` callback exactly once; neither a "not modified" nor
a failure response ever emits `onDataChanged`. -/
theorem poll_cycle_transitions (cfg : PollConfig) (ps : PollState) (now : ℕ)
    (tag : String) (hmult : 1 < cfg.backoffMultiplier)
    (hmin : 0 < cfg.minInterval) (hlo : cfg.minInterval ≤ ps.interval) :
    (∃ ps', (pollStep cfg ps now .notModified).1 = .running ps' ∧
      (ps.interval < ps'.interval ∨ ps'.interval = cfg.maxInterval)) ∧
    (pollStep cfg ps now .notModified).2 = [] ∧
    (∃ ps', (pollStep cfg ps now (.changed tag)).1 = .running ps' ∧
      ps'.interval = cfg.baseInterval ∧ ps'.versionTag = some tag) ∧
    (pollStep cfg ps now (.changed tag)).2 = [.dataChanged tag] ∧
    (∀ t, PollEvent.dataChanged t ∉ (pollStep cfg ps now .transportFailure).2) := by
  have hpos : 0 < ps.interval := lt_of_lt_of_le hmin hlo
  refine ⟨⟨_, rfl, ?_⟩, rfl, ⟨_, rfl, rfl, rfl⟩, rfl, ?_⟩
  · rcases le_total (ps.interval * cfg.backoffMultiplier) cfg.maxInterval with hc | hc
    · left
      show ps.interval < min (ps.interval * cfg.backoffMultiplier) cfg.maxInterval
      rw [min_eq_left hc]
      exact (lt_mul_iff_one_lt_right hpos).mpr hmult
    · right
      show min (ps.interval * cfg.backoffMultiplier) cfg.maxInterval = cfg.maxInterval
      exact min_eq_right hc
  · intro t
    by_cases hc : cfg.maxConsecutiveFailures ≤ ps.consecutiveFailures + 1
    · rw [pollStep_failure_stops cfg ps now hc]; simp
    · rw [pollStep_failure_continues cfg ps now hc]; simp

/-- Claim C6, witness: the theorem applied to the default configuration
and the freshly started client state. -/
theorem poll_cycle_transitions_witness :
    (∃ ps', (pollStep defaultPollConfig (initPollState defaultPollConfig) 0
        .notModified).1 = .running ps' ∧
      ((initPollState defaultPollConfig).interval < ps'.interval ∨
        ps'.interval = defaultPollConfig.maxInterval)) ∧
    (pollStep defaultPollConfig (initPollState defaultPollConfig) 0 .notModified).2 = [] ∧
    (∃ ps', (pollStep defaultPollConfig (initPollState defaultPollConfig) 0
        (.changed "v1")).1 = .running ps' ∧
      ps'.interval = defaultPollConfig.baseInterval ∧ ps'.versionTag = some "v1") ∧
    (pollStep defaultPollConfig (initPollState defaultPollConfig) 0
      (.changed "v1")).2 = [.dataChanged "v1"] ∧
    (∀ t, PollEvent.dataChanged t ∉
      (pollStep defaultPollConfig (initPollState defaultPollConfig) 0
        .transportFailure).2) :=
  poll_cycle_transitions defaultPollConfig (initPollState defaultPollConfig) 0 "v1"
    (by decide) (by decide) (by decide)

/-! # Claim C7 -/

/-- Claim C7: starting from a running client with a clean failure count,
N consecutive transport failures (N the configured positive cap) drive
the client to the terminal `stopped` state, emit the persistent-failure
signal exactly once, and exactly N poll requests are sent no matter what
responses would follow; and from `stopped` (reached by the failure cap or
by cancellation) no poll request is ever sent. -/
theorem failure_cap_stops_polling (cfg : PollConfig) (ps : PollState) (now : ℕ)
    (rs : List PollResponse) (hcap : 0 < cfg.maxConsecutiveFailures)
    (hzero : ps.consecutiveFailures = 0) :
    (pollRun cfg (.running ps) now
      (List.replicate cfg.maxConsecutiveFailures .transportFailure ++ rs)) =
      { final := .stopped, events := [.persistentFailure cfg.maxConsecutiveFailures],
        requestsSent := cfg.maxConsecutiveFailures } ∧
    (∀ (s : ClientState) (nowB : ℕ) (rsB : List PollResponse),
      pollRun cfg (cancelPolling s) nowB rsB =
        { final := .stopped, events := [], requestsSent := 0 }) := by
  obtain ⟨n, hn⟩ : ∃ n, cfg.maxConsecutiveFailures = n + 1 :=
    ⟨cfg.maxConsecutiveFailures - 1, by omega⟩
  refine ⟨?_, fun s nowB rsB => pollRun_from_stopped cfg nowB rsB⟩
  rw [hn]
  rw [pollRun_failure_budget cfg n ps now rs (by omega), hn]

/-- Claim C7, witness: the default configuration (cap 3) from the initial
state: three transport failures stop the client with one
persistent-failure signal and exactly three requests sent, and a
cancelled client sends no requests. -/
theorem failure_cap_stops_polling_witness :
    (pollRun defaultPollConfig (.running (initPollState defaultPollConfig)) 0
      (List.replicate defaultPollConfig.maxConsecutiveFailures .transportFailure ++ [])) =
      { final := .stopped,
        events := [.persistentFailure defaultPollConfig.maxConsecutiveFailures],
        requestsSent := defaultPollConfig.maxConsecutiveFailures } ∧
    (∀ (s : ClientState) (nowB : ℕ) (rsB : List PollResponse),
      pollRun defaultPollConfig (cancelPolling s) nowB rsB =
        { final := .stopped, events := [], requestsSent := 0 }) :=
  failure_cap_stops_polling defaultPollConfig (initPollState defaultPollConfig) 0 []
    (by decide) rfl

/-! # Claim C8 -/

/-- Claim C8: with a sane configuration (`0 ≤ min ≤ base ≤ max` and
multiplier at least 1), the poll interval lies within the configured
`[min, max]` bounds at client start, the bounds are preserved by every
poll cycle (unchanged, changed and failure transitions alike), and they
hold at the end of every run from any state satisfying them. -/
theorem poll_interval_within_bounds (cfg : PollConfig)
    (h1 : 0 ≤ cfg.minInterval) (h2 : cfg.minInterval ≤ cfg.baseInterval)
    (h3 : cfg.baseInterval ≤ cfg.maxInterval) (h4 : 1 ≤ cfg.backoffMultiplier) :
    intervalWithinBounds cfg (.running (initPollState cfg)) ∧
    (∀ (ps : PollState) (now : ℕ) (r : PollResponse),
      intervalWithinBounds cfg (.running ps) →
      intervalWithinBounds cfg (pollStep cfg ps now r).1) ∧
    (∀ (s : ClientState) (now : ℕ) (rs : List PollResponse),
      intervalWithinBounds cfg s →
      intervalWithinBounds cfg (pollRun cfg s now rs).final) := by
  have hstep : ∀ (ps : PollState) (now : ℕ) (r : PollResponse),
      intervalWithinBounds cfg (.running ps) →
      intervalWithinBounds cfg (pollStep cfg ps now r).1 := by
    intro ps now r hinv
    obtain ⟨hl, hr⟩ : cfg.minInterval ≤ ps.interval ∧ ps.interval ≤ cfg.maxInterval := hinv
    have hgrow : cfg.minInterval ≤ min (ps.interval * cfg.backoffMultiplier) cfg.maxInterval ∧
        min (ps.interval * cfg.backoffMultiplier) cfg.maxInterval ≤ cfg.maxInterval := by
      refine ⟨le_min ?_ (le_trans h2 h3), min_le_right _ _⟩
      exact le_trans hl (le_mul_of_one_le_right (le_trans h1 hl) h4)
    cases r with
    | notModified => exact hgrow
    | changed tag => exact ⟨h2, h3⟩
    | transportFailure =>
      show intervalWithinBounds cfg
        (if cfg.maxConsecutiveFailures ≤ ps.consecutiveFailures + 1 then
          ((.stopped : ClientState), [PollEvent.persistentFailure (ps.consecutiveFailures + 1)])
        else
          (.running { ps with
              interval := min (ps.interval * cfg.backoffMultiplier) cfg.maxInterval,
              consecutiveFailures := ps.consecutiveFailures + 1 }, [])).1
      split
      · trivial
      · exact hgrow
  refine ⟨⟨h2, h3⟩, hstep, ?_⟩
  intro s now rs
  induction rs generalizing s now with
  | nil =>
    intro hs
    cases s with
    | stopped => rw [pollRun_from_stopped]; trivial
    | running ps => exact hs
  | cons r rs ih =>
    intro hs
    cases s with
    | stopped => rw [pollRun_from_stopped]; trivial
    | running ps =>
      rw [pollRun_running_cons]
      exact ih (pollStep cfg ps now r).1 (now + 1) (hstep ps now r hs)

/-- Claim C8, witness: the theorem applied to the default configuration;
in particular the initial state satisfies the bounds. -/
theorem poll_interval_within_bounds_witness :
    intervalWithinBounds defaultPollConfig
      (.running (initPollState defaultPollConfig)) ∧
    (∀ (ps : PollState) (now : ℕ) (r : PollResponse),
      intervalWithinBounds defaultPollConfig (.running ps) →
      intervalWithinBounds defaultPollConfig (pollStep defaultPollConfig ps now r).1) ∧
    (∀ (s : ClientState) (now : ℕ) (rs : List PollResponse),
      intervalWithinBounds defaultPollConfig s →
      intervalWithinBounds defaultPollConfig
        (pollRun defaultPollConfig s now rs).final) :=
  poll_interval_within_bounds defaultPollConfig (by decide) (by decide) (by decide)
    (by decide)

/-! # Claim C9 -/

/-- Claim C9: the comparable generation is independent of the subject:
for any two subject forms and the same draw stream, the submission
outcome is identical, because neither the generator nor the submission
handler reads any subject data. -/
theorem handleSubmit_subject_independent (f1 f2 : PropertyInput) (s : RandState) :
    handleSubmit f1 s = handleSubmit f2 s := rfl

end Starboard
